import Mathlib

/-!
Verification of the agentctl natural-language-to-Kubernetes-manifest pipeline.

Shallow embedding of the core of the repository:
  * `src/agentctl/agent.py` — `K8sAgent` (intent classification, manifest
    rendering for Job / Deployment / CronJob);
  * `src/backend/services/agent_service.py` — `randomize_name` (the name
    disambiguator) and `AgentService.generate_yaml` (the generation
    orchestrator);
  * `src/agentctl/k8s_client.py` — `K8sClient.apply_manifest` (the cluster
    gateway dispatch).

Python strings are modelled as Lean `String` with helper functions mirroring
the exact Python primitives used by the code (`str.lower`, the `in` operator,
`str.find`, `str.replace`, `str.strip`, slicing).  YAML documents are
modelled by their structural tree (`YVal`); the external PyYAML library
(`yaml.safe_load` / `yaml.dump`) is modelled as an abstract pair of
functions `parse : String → Except String YVal` (where `.error e` stands for
a raised `YAMLError` with text `e`) and `dump : YVal → String`, over which
the theorems quantify.
The external text-generation collaborator (`ask_llm`, and the optional
OpenAI path inside `maybe_llm_yaml`) is modelled as an oracle supplying the
result — returned value or raised exception — of each call, per the
specification which treats it as an opaque fallible function.  Exceptions
raised by the embedded Python code are modelled with `Except`.
-/

set_option maxRecDepth 4000

/-! ## Python string primitives on `List Char` -/

/-- Python whitespace set used by `str.strip` and the regex class `\s`. -/
def pyIsSpace (c : Char) : Bool :=
  c = ' ' || c = '\t' || c = '\n' || c = '\r' || c = '\x0b' || c = '\x0c'

/-- Index of the first occurrence of `pat` in `s` (Python `str.find`, as an
`Option`: `none` for `-1`). -/
def findSub (pat : List Char) : List Char → Option Nat
  | [] => if pat.isPrefixOf ([] : List Char) then some 0 else none
  | c :: rest =>
    if pat.isPrefixOf (c :: rest) then some 0
    else (findSub pat rest).map (· + 1)

/-- Python `pat in s` (substring containment). -/
def hasSub (s pat : List Char) : Bool :=
  (findSub pat s).isSome

/-- Worker for `replaceAll`; each step consumes at least one character, so
`fuel` bounded below by the length of the list makes the recursion
structural (and hence kernel-computable). -/
def replaceAllGo (pat rep : List Char) : Nat → List Char → List Char
  | _, [] => []
  | 0, l => l
  | fuel + 1, c :: rest =>
    if pat.isPrefixOf (c :: rest) && !pat.isEmpty then
      rep ++ replaceAllGo pat rep fuel (rest.drop (pat.length - 1))
    else
      c :: replaceAllGo pat rep fuel rest

/-- Python `s.replace(old, new)`: replace every non-overlapping occurrence
left to right. -/
def replaceAll (pat rep s : List Char) : List Char :=
  replaceAllGo pat rep s.length s

/-- Python `s.strip()`. -/
def trimBoth (s : List Char) : List Char :=
  ((s.dropWhile pyIsSpace).reverse.dropWhile pyIsSpace).reverse

/-! ### The same primitives lifted to `String` -/

/-- Python `s.lower()` (the source only ever lowercases ASCII text). -/
def pyLower (s : String) : String := ⟨s.data.map Char.toLower⟩

/-- Python `pat in s`. -/
def pyContains (s pat : String) : Bool := hasSub s.data pat.data

/-- Python `s.find(pat)` (`none` for `-1`). -/
def pyFind (s pat : String) : Option Nat := findSub pat.data s.data

/-- Python slicing `s[n:]`. -/
def pyDrop (s : String) (n : Nat) : String := ⟨s.data.drop n⟩

/-- Python `s[:-n]`. -/
def pyDropRight (s : String) (n : Nat) : String := ⟨s.data.take (s.data.length - n)⟩

/-- Python `s.replace(pat, rep)`. -/
def pyReplace (s pat rep : String) : String := ⟨replaceAll pat.data rep.data s.data⟩

/-- Python `s.strip()`. -/
def pyStrip (s : String) : String := ⟨trimBoth s.data⟩

/-- Python `"\n".join(lines) + "\n"` as used by the manifest renderers. -/
def joinNl (lines : List String) : String :=
  lines.foldr (fun a acc => a ++ "\n" ++ acc) ""

/-! ## YAML structural trees

`YVal` models the values `yaml.safe_load` can produce for the manifests this
program manipulates: scalars, sequences, and (insertion-ordered) mappings
with string keys. -/

inductive YVal where
  | null
  | bool (b : Bool)
  | int (n : Int)
  | str (s : String)
  | arr (xs : List YVal)
  | map (kvs : List (String × YVal))

/-- First-match lookup in an insertion-ordered mapping (Python `dict.get`). -/
def lookupKV (kvs : List (String × YVal)) (k : String) : Option YVal :=
  match kvs with
  | [] => none
  | (k', v) :: rest => if k' = k then some v else lookupKV rest k

/-- Python `d[k] = v`: overwrite in place, or append a fresh key at the end
(insertion order preserved, as `yaml.dump(..., sort_keys=False)` relies on). -/
def setKey (kvs : List (String × YVal)) (k : String) (v : YVal) :
    List (String × YVal) :=
  match kvs with
  | [] => [(k, v)]
  | (k', v') :: rest => if k' = k then (k, v) :: rest else (k', v') :: setKey rest k v

/-- Python truthiness of a YAML value (`if not name: ...`). -/
def pyTruthy : YVal → Bool
  | .null => false
  | .bool b => b
  | .int n => n ≠ 0
  | .str s => s ≠ ""
  | .arr xs => !xs.isEmpty
  | .map kvs => !kvs.isEmpty

mutual
/-- Python `f"{v}"` (`str()`) on a YAML value.  Scalars follow Python
exactly; containers get a Python-repr-like rendering (never reached by the
manifests the program builds, whose names are strings). -/
def pyStr : YVal → String
  | .null => "None"
  | .bool b => if b then "True" else "False"
  | .int n => toString n
  | .str s => s
  | .arr xs => "[" ++ pyStrSeq xs ++ "]"
  | .map kvs => "\x7b" ++ pyStrMap kvs ++ "\x7d"

/-- Comma-joined rendering of a YAML sequence, for `pyStr`. -/
def pyStrSeq : List YVal → String
  | [] => ""
  | [x] => pyStr x
  | x :: y :: xs => pyStr x ++ ", " ++ pyStrSeq (y :: xs)

/-- Comma-joined rendering of a YAML mapping, for `pyStr`. -/
def pyStrMap : List (String × YVal) → String
  | [] => ""
  | [(k, v)] => k ++ ": " ++ pyStr v
  | (k, v) :: e :: xs => k ++ ": " ++ pyStr v ++ ", " ++ pyStrMap (e :: xs)
end

/-- Walk a fixed path of mapping keys down a tree. -/
def getPath : YVal → List String → Option YVal
  | v, [] => some v
  | .map kvs, k :: rest =>
    match lookupKV kvs k with
    | some v => getPath v rest
    | none => none
  | _, _ :: _ => none

/-- Extract a string scalar from an optional value. -/
def asStr : Option YVal → Option String
  | some (.str s) => some s
  | _ => none

/-! ## Name Disambiguator — `randomize_name`
(`src/backend/services/agent_service.py`, lines 9-30) -/

/-- The kind test `kind in ("Job", "Deployment", "CronJob")`. -/
def kindOK : Option YVal → Bool
  | some (.str s) => s = "Job" || s = "Deployment" || s = "CronJob"
  | _ => false

/-- Python `str(uuid.uuid4())[:5]`, applied to the textual form `u` of the
fresh random identifier. -/
def uuid_prefix5 (u : String) : String := ⟨u.data.take 5⟩

/-- The value-level body of `randomize_name`, operating on the parsed tree.
Returns `none` exactly when the Python function returns its input unchanged:
non-mapping document, kind outside the three workload kinds, missing or
falsy `metadata.name`, or a `metadata` entry that is not a mapping (in which
case `metadata.get` raises `AttributeError`, swallowed by the enclosing
`except`). -/
def randomize_obj (obj : YVal) (suffix : String) : Option YVal :=
  match obj with
  | .map kvs =>
    if kindOK (lookupKV kvs "kind") then
      -- metadata = obj.setdefault("metadata", {})
      let md : YVal := (lookupKV kvs "metadata").getD (.map [])
      let kvs' : List (String × YVal) :=
        match lookupKV kvs "metadata" with
        | some _ => kvs
        | none => setKey kvs "metadata" (.map [])
      match md with
      | .map mkvs =>
        match lookupKV mkvs "name" with
        | some nv =>
          if pyTruthy nv then
            some (.map (setKey kvs' "metadata"
              (.map (setKey mkvs "name" (.str (pyStr nv ++ "-" ++ suffix))))))
          else none
        | none => none
      | _ => none
    else none
  | _ => none

/-- `randomize_name(yaml_text)`: parse, rewrite, re-serialize; on any parse
failure or non-applicable document, return the input unchanged.  `parse` and
`dump` model `yaml.safe_load` (with `.error` for a raised `YAMLError`) and
`yaml.dump(·, sort_keys=False)`; `u` is the textual form of the fresh
`uuid.uuid4()`. -/
def randomize_name (parse : String → Except String YVal) (dump : YVal → String)
    (u : String) (yaml_text : String) : String :=
  match parse yaml_text with
  | .error _ => yaml_text
  | .ok obj =>
    match randomize_obj obj (uuid_prefix5 u) with
    | none => yaml_text
    | some o => dump o

example :
    asStr (getPath
      (YVal.map [("kind", .str "Job"),
                 ("metadata", .map [("name", .str "agentctl-job")])])
      ["metadata", "name"]) = some "agentctl-job" := by decide

example :
    (randomize_obj
      (YVal.map [("kind", .str "Job"),
                 ("metadata", .map [("name", .str "agentctl-job")])])
      "ab3de").bind (fun v => asStr (getPath v ["metadata", "name"]))
      = some "agentctl-job-ab3de" := by decide

/-! ## Intent Classifier and Manifest Renderer — `K8sAgent`
(`src/agentctl/agent.py`) -/

/-- The `JobSpecRequest` dataclass.  The Python field `namespace` is a Lean
keyword and is embedded as `nspace`; the dataclass defaults (name
`agentctl-job`, image `busybox:1.36`, command `echo Hello && sleep 5`, cpu
`500m`, memory `512Mi`, namespace `default`) are always overwritten by
`nl_to_job_request`, the only constructor site. -/
structure JobSpecRequest where
  prompt : String
  name : String
  image : String
  command : Option String
  cpu : String
  memory : String
  nspace : String
deriving DecidableEq

/-- `K8sAgent.infer_kind` (lines 36-48). -/
def infer_kind (text : String) : String :=
  let t := pyLower text
  if ["every minute", "every 5 minutes", "every hour", "cron", "schedule",
      "scheduled job"].any (fun w => pyContains t w) then
    "CronJob"
  else if ["deployment", "service", "web", "api", "server", "nginx",
           "frontend", "backend"].any (fun w => pyContains t w) then
    "Deployment"
  else
    "Job"

/-- `K8sAgent.nl_to_job_request` (lines 52-91). -/
def nl_to_job_request (text : String) (nspace : String) :
    JobSpecRequest :=
  let t := pyLower text
  let name :=
    if pyContains t "preprocess" then "preprocess-job"
    else if pyContains t "inference" then "inference-job"
    else if pyContains t "train" || pyContains t "training" then "training-job"
    else "agentctl-job"
  let image0 := if pyContains t "python" then "python:3.11-slim" else "busybox:1.36"
  let image :=
    if pyContains t "pytorch" then "pytorch/pytorch:2.3.0-cuda12.1-cudnn9-runtime"
    else image0
  let command :=
    if pyContains t "run python" then
      match pyFind t "run python" with
      | some idx => pyStrip (pyReplace (pyDrop text idx) "run " "")
      | none => "echo Hello && sleep 5"
    else "echo Hello && sleep 5"
  let cpu := if pyContains t "gpu" then "2000m" else "500m"
  let memory := if pyContains t "gpu" then "8Gi" else "512Mi"
  { prompt := text, name := name, image := image, command := some command,
    cpu := cpu, memory := memory, nspace := nspace }

/-- `K8sAgent.job_request_to_yaml` (lines 93-128). -/
def job_request_to_yaml (req : JobSpecRequest) : String :=
  let cmd : Option (List String) :=
    match req.command with
    | some c => if c ≠ "" then some ["/bin/sh", "-c", c] else none
    | none => none
  let head := [
    "apiVersion: batch/v1",
    "kind: Job",
    "metadata:",
    "  name: " ++ req.name,
    "  namespace: " ++ req.nspace,
    "spec:",
    "  template:",
    "    metadata:",
    "      labels:",
    "        app: agentctl",
    "    spec:",
    "      restartPolicy: Never",
    "      containers:",
    "        - name: main",
    "          image: " ++ req.image]
  let cmdLines :=
    match cmd with
    | some cs => "          command:" :: cs.map (fun c => "            - " ++ c)
    | none => []
  let tail := [
    "          resources:",
    "            requests:",
    "              cpu: " ++ req.cpu,
    "              memory: " ++ req.memory,
    "            limits:",
    "              cpu: " ++ req.cpu,
    "              memory: " ++ req.memory]
  joinNl (head ++ cmdLines ++ tail)

/-- Digit run to number, for `int(m.group(1))`. -/
def natOfDigits (ds : List Char) : Nat :=
  ds.foldl (fun a c => a * 10 + (c.toNat - 48)) 0

/-- One attempt of the regex `(\d+)\s+replica` anchored at the current
position: one or more digits, one or more whitespace, then `replica`. -/
def replicaMatchAt (l : List Char) : Option Nat :=
  let ds := l.takeWhile Char.isDigit
  let r1 := l.dropWhile Char.isDigit
  if ds.isEmpty then none
  else if (r1.takeWhile pyIsSpace).isEmpty then none
  else if ("replica".data).isPrefixOf (r1.dropWhile pyIsSpace) then
    some (natOfDigits ds)
  else none

/-- `re.search(r"(\d+)\s+replica", t)`: leftmost match wins. -/
def findReplica : List Char → Option Nat
  | [] => none
  | c :: rest =>
    match replicaMatchAt (c :: rest) with
    | some n => some n
    | none => findReplica rest

/-- `K8sAgent.nl_to_deployment_yaml` (lines 132-173). -/
def nl_to_deployment_yaml (text : String) (nspace : String) : String :=
  let t := pyLower text
  let name := if pyContains t "nginx" then "nginx-deployment" else "agentctl-deployment"
  let image0 := if pyContains t "python" then "python:3.11-slim" else "nginx:1.27-alpine"
  let image :=
    if pyContains t "pytorch" then "pytorch/pytorch:2.3.0-cuda12.1-cudnn9-runtime"
    else image0
  let replicas := (findReplica t.data).getD 1
  joinNl [
    "apiVersion: apps/v1",
    "kind: Deployment",
    "metadata:",
    "  name: " ++ name,
    "  namespace: " ++ nspace,
    "  labels:",
    "    app: agentctl-deployment",
    "spec:",
    "  replicas: " ++ toString replicas,
    "  selector:",
    "    matchLabels:",
    "      app: agentctl-deployment",
    "  template:",
    "    metadata:",
    "      labels:",
    "        app: agentctl-deployment",
    "    spec:",
    "      containers:",
    "        - name: main",
    "          image: " ++ image,
    "          ports:",
    "            - containerPort: 80"]

/-- The cron `schedule` selection in `K8sAgent.nl_to_cronjob_yaml`
(lines 184-191); `t` is the lowercased text. -/
def cronjob_schedule (t : String) : String :=
  if pyContains t "every minute" then "* * * * *"
  else if pyContains t "every 5 minutes" then "*/5 * * * *"
  else if pyContains t "every hour" then "0 * * * *"
  else if pyContains t "every day" then "0 0 * * *"
  else "*/5 * * * *"

/-- The image selection in `K8sAgent.nl_to_cronjob_yaml` (lines 180, 193-194);
`t` is the lowercased text. -/
def cronjob_image (t : String) : String :=
  if pyContains t "python" then "python:3.11-slim" else "busybox:1.36"

/-- The command selection in `K8sAgent.nl_to_cronjob_yaml` (lines 181,
195-198): on `"run python" in t`, everything of the original-case `text`
from the match position onward, with every `"run "` removed, trimmed. -/
def cronjob_command (text t : String) : String :=
  if pyContains t "run python" then
    pyStrip (pyReplace (pyDrop text ((pyFind t "run python").getD 0)) "run " "")
  else "echo Hello from CronJob && date"

/-- `K8sAgent.nl_to_cronjob_yaml` (lines 177-224). -/
def nl_to_cronjob_yaml (text : String) (nspace : String) : String :=
  let t := pyLower text
  let schedule := cronjob_schedule t
  let image := cronjob_image t
  let command := cronjob_command text t
  joinNl [
    "apiVersion: batch/v1",
    "kind: CronJob",
    "metadata:",
    "  name: agentctl-cronjob",
    "  namespace: " ++ nspace,
    "spec:",
    "  schedule: \"" ++ schedule ++ "\"",
    "  jobTemplate:",
    "    spec:",
    "      template:",
    "        metadata:",
    "          labels:",
    "            app: agentctl-cronjob",
    "        spec:",
    "          restartPolicy: Never",
    "          containers:",
    "            - name: main",
    "              image: " ++ image,
    "              command:",
    "                - /bin/sh",
    "                - -c",
    "                - " ++ command]

/-- ASCII letter, for the regex class `[a-zA-Z]`. -/
def isAsciiAlpha (c : Char) : Bool :=
  ('a' ≤ c && c ≤ 'z') || ('A' ≤ c && c ≤ 'Z')

/-- Python `s.startswith(pat)`. -/
def pyStartsWith (s pat : String) : Bool := pat.data.isPrefixOf s.data

/-- Python `s.endswith(pat)`. -/
def pyEndsWith (s pat : String) : Bool := pat.data.isSuffixOf s.data

/-- The code-fence stripping of `K8sAgent.maybe_llm_yaml` (lines 266-270):
strip, remove a leading fence (three backticks plus letters, the regex
`^`-anchored sub), strip, and if a trailing fence remains, drop it and
strip. -/
def stripFences (content : String) : String :=
  let content := pyStrip content
  if pyStartsWith content "```" then
    let content := pyStrip ⟨(content.data.drop 3).dropWhile isAsciiAlpha⟩
    if pyEndsWith content "```" then pyStrip (pyDropRight content 3)
    else content
  else content

/-- `K8sAgent.maybe_llm_yaml` (lines 228-272).  The optional OpenAI
collaborator is modelled by `oai`: `none` when the path is disabled
(`AGENTCTL_USE_LLM` unset, no API key, or library unavailable — lines
232-236); `some (.error e)` when the enabled path raises — the
`OpenAI(api_key=...)` construction and the `chat.completions.create`
call (lines 238, 255-262) sit in no try/except, so such an exception
propagates out of `maybe_llm_yaml` uncaught; `some (.ok mc)` when the
call returns, with `mc` the returned `message.content` (`none` for a
`None` content, which falls back — line 263). -/
def maybe_llm_yaml (oai : Option (Except String (Option String)))
    (fallback_yaml : String) : Except String String :=
  match oai with
  | none => .ok fallback_yaml
  | some (.error e) => .error e
  | some (.ok mc) =>
    let content :=
      match mc with
      | some c => if c ≠ "" then c else fallback_yaml
      | none => fallback_yaml
    .ok (stripFences content)

/-- The kind resolution of `K8sAgent.nl_to_resource_yaml` (lines 283-284):
infer the kind when the argument is falsy or `"auto"` case-insensitively,
else take it verbatim. -/
def resolved_kind (text : String) (kind : Option String) : String :=
  match kind with
  | none => infer_kind text
  | some s => if s = "" || pyLower s = "auto" then infer_kind text else s

/-- `K8sAgent.nl_to_resource_yaml` (lines 276-297): resolve the kind,
render, pass the base manifest through the optional OpenAI collaborator
(whose enabled call may itself raise, propagating out of this method),
and return `(kind, yaml)`; raise `ValueError` on any other kind. -/
def nl_to_resource_yaml (oai : Option (Except String (Option String)))
    (text : String) (nspace : String) (kind : Option String) :
    Except String (String × String) :=
  let k := resolved_kind text kind
  if k = "Job" then
    (maybe_llm_yaml oai (job_request_to_yaml (nl_to_job_request text nspace))).map
      (fun y => (k, y))
  else if k = "Deployment" then
    (maybe_llm_yaml oai (nl_to_deployment_yaml text nspace)).map (fun y => (k, y))
  else if k = "CronJob" then
    (maybe_llm_yaml oai (nl_to_cronjob_yaml text nspace)).map (fun y => (k, y))
  else
    .error ("Unsupported kind: " ++ k)

example : infer_kind "run a python job to preprocess data" = "Job" := by decide
example : (nl_to_job_request "run a python job to preprocess data" "default").image
    = "python:3.11-slim" := by decide
example : (nl_to_job_request "run python a.py then run python b.py" "default").command
    = some "python a.py then python b.py" := by decide
example : cronjob_command "run python a.py then run python b.py"
    (pyLower "run python a.py then run python b.py")
    = "python a.py then python b.py" := by decide

/-! ## Generation Orchestrator — `AgentService.generate_yaml`
(`src/backend/services/agent_service.py`, lines 42-112) -/

/-- One request's behaviour of the external text-generation collaborator
(`ask_llm`): the outcome of the plan call (step 1) and of the YAML call
(step 2).  `.error` models a raised exception, `.ok` a returned string. -/
structure LLMBehavior where
  planResult : Except String String
  yamlResult : Except String String

/-- `ns = namespace or settings.k8s_namespace` (line 44): Python `or` falls
through on `None` and on the empty string. -/
def resolve_ns (nspace : Option String) (envNs : String) : String :=
  match nspace with
  | some s => if s = "" then envNs else s
  | none => envNs

/-- `kind_sel = None if (kind is None or kind == "Auto") else kind`
(line 45). -/
def resolve_kind_arg (kind : Option String) : Option String :=
  match kind with
  | none => none
  | some s => if s = "Auto" then none else some s

/-- `AgentService.generate_yaml`.  `parse`/`dump` model PyYAML for the
embedded `randomize_name`; `oai` models the optional, itself fallible
OpenAI collaborator inside the fallback `nl_to_resource_yaml` (its raise
propagates out of the except-handler bodies uncaught); `envNs` models
`settings.k8s_namespace`; `llm` is the behaviour of the two `ask_llm`
calls; `u` is the fresh `uuid.uuid4()` text used by whichever
`randomize_name` call runs.  The returned value is a bare YAML string
(`Except.error` models a propagated exception). -/
def generate_yaml (parse : String → Except String YVal) (dump : YVal → String)
    (oai : Option (Except String (Option String))) (envNs : String) (llm : LLMBehavior)
    (u : String) (prompt : String) (nspace : Option String)
    (kind : Option String) : Except String String :=
  let ns := resolve_ns nspace envNs
  let kind_sel := resolve_kind_arg kind
  match llm.planResult with
  | .error _ =>
    -- plan step raised: fall back immediately, WITHOUT randomize_name
    (nl_to_resource_yaml oai prompt ns kind_sel).map (fun p => p.2)
  | .ok _plan =>
    match llm.yamlResult with
    | .ok yaml_text =>
      if pyStrip yaml_text = "" then
        -- `raise ValueError("Empty YAML from LLM")`, caught below: fallback
        (nl_to_resource_yaml oai prompt ns kind_sel).map
          (fun p => randomize_name parse dump u p.2)
      else
        .ok (randomize_name parse dump u yaml_text)
    | .error _ =>
      (nl_to_resource_yaml oai prompt ns kind_sel).map
        (fun p => randomize_name parse dump u p.2)

/-! ## Cluster Gateway — `K8sClient.apply_manifest`
(`src/agentctl/k8s_client.py`, lines 65-89) -/

/-- The `ApplyResult` fields the dispatch logic constructs before any
network activity. -/
structure ApplyResult where
  success : Bool
  message : String
deriving DecidableEq

/-- Where `apply_manifest` stops: either an early return with no HTTP
request issued, or the POST it is about to send (path, object name,
namespace). -/
inductive ApplyStep where
  | noRequest (result : ApplyResult)
  | request (path : String) (name : String) (nspace : String)
deriving DecidableEq

/-- `metadata = manifest.get("metadata", {})` followed by the `.get` calls
on it (lines 76-78): absent metadata behaves as the empty mapping; a
present but non-mapping metadata value makes `metadata.get` raise an
`AttributeError`, which `apply_manifest` does not catch. -/
def metadata_get (kvs : List (String × YVal)) :
    Except String (List (String × YVal)) :=
  match lookupKV kvs "metadata" with
  | none => .ok []
  | some (.map md) => .ok md
  | some _ => .error "AttributeError: object has no attribute get"

/-- `K8sClient.apply_manifest` up to the point where a network request
would be issued.  `parsed` is the `yaml.safe_load` outcome on the input
(`.error e` a raised `YAMLError`); `defaultNs` is `self.namespace`.  The
outer `Except` models exceptions the method itself raises: when the
manifest carries a non-mapping `metadata` value, `metadata.get` raises an
uncaught `AttributeError` (only `yaml.YAMLError` is caught). -/
def apply_manifest (parsed : Except String YVal) (defaultNs : String) :
    Except String ApplyStep :=
  match parsed with
  | .error e => .ok (.noRequest ⟨false, "Invalid YAML: " ++ e⟩)
  | .ok m =>
    match m with
    | .map kvs =>
      match metadata_get kvs with
      | .error e => .error e
      | .ok md =>
        let name :=
          match lookupKV md "name" with
          | some v => pyStr v
          | none => "<unnamed>"
        let ns :=
          match lookupKV md "namespace" with
          | some v => pyStr v
          | none => defaultNs
        match lookupKV kvs "kind" with
        | some (.str "Job") =>
          .ok (.request ("/apis/batch/v1/namespaces/" ++ ns ++ "/jobs") name ns)
        | some (.str "Deployment") =>
          .ok (.request ("/apis/apps/v1/namespaces/" ++ ns ++ "/deployments") name ns)
        | some (.str "CronJob") =>
          .ok (.request ("/apis/batch/v1/namespaces/" ++ ns ++ "/cronjobs") name ns)
        | some v =>
          .ok (.noRequest ⟨false, "Unsupported kind: " ++ pyStr v⟩)
        | none =>
          .ok (.noRequest ⟨false, "Unsupported kind: None"⟩)
    | _ => .ok (.noRequest ⟨false, "Manifest must be a single YAML object."⟩)

example :
    apply_manifest (.ok (.map [("kind", .str "Unsupported")])) "default"
      = .ok (.noRequest ⟨false, "Unsupported kind: Unsupported"⟩) := rfl

example :
    apply_manifest (.ok (.map [("kind", .str "Unsupported"), ("metadata", .int 5)]))
      "default" = .error "AttributeError: object has no attribute get" := rfl

/-! ## Supporting definitions for the claims -/

/-- Is the value a YAML mapping? -/
def isMapB : YVal → Bool
  | .map _ => true
  | _ => false

/-- A character allowed in the DNS-1123-compatible labels of the
specification: lowercase ASCII letter, ASCII digit, or hyphen. -/
def isDnsChar (c : Char) : Bool :=
  (97 ≤ c.toNat && c.toNat ≤ 122) || (48 ≤ c.toNat && c.toNat ≤ 57) || c = '-'

/-- Every character of the string is a lowercase alphanumeric or hyphen. -/
def isDnsLabel (s : String) : Bool := s.data.all isDnsChar

/-- Lowercase hex digit, as produced by `str(uuid.uuid4())`. -/
def isHexLowerChar (c : Char) : Bool :=
  (48 ≤ c.toNat && c.toNat ≤ 57) || (97 ≤ c.toNat && c.toNat ≤ 102)

/-- The portion of the canonical `str(uuid.uuid4())` form the proofs rely
on: 36 characters, the first eight of which are lowercase hex digits
(positions 0-7 of a UUID string precede the first hyphen). -/
def uuid4_shape (u : String) : Bool :=
  u.data.length = 36 && (u.data.take 8).all isHexLowerChar

/-- A fixed, well-formed UUID text used to instantiate theorems. -/
def u0str : String := "ab3de123-4567-4abc-8def-0123456789ab"

/-- A `yaml.safe_load` behaviour that always raises. -/
def parseNone : String → Except String YVal := fun _ => .error "YAMLError"

/-- A `yaml.safe_load` behaviour that always yields a minimal Job
manifest tree. -/
def parseJobConst : String → Except String YVal := fun _ =>
  .ok (.map [("kind", .str "Job"), ("metadata", .map [("name", .str "agentctl-job")])])

/-- A `yaml.dump` behaviour with a fixed output. -/
def dumpConst : YVal → String := fun _ =>
  "kind: Job\nmetadata:\n  name: agentctl-job-ab3de\n"

/-- The structural tree of the CronJob manifest `nl_to_cronjob_yaml`
renders for a default request (name `agentctl-cronjob`, busybox image,
default schedule and command). -/
def cronTreeDemo : YVal :=
  .map [("apiVersion", .str "batch/v1"),
        ("kind", .str "CronJob"),
        ("metadata", .map [("name", .str "agentctl-cronjob"),
                           ("namespace", .str "default")]),
        ("spec", .map [
          ("schedule", .str "*/5 * * * *"),
          ("jobTemplate", .map [
            ("spec", .map [
              ("template", .map [
                ("metadata", .map [("labels", .map [("app", .str "agentctl-cronjob")])]),
                ("spec", .map [
                  ("restartPolicy", .str "Never"),
                  ("containers", .arr [
                    .map [("name", .str "main"),
                          ("image", .str "busybox:1.36"),
                          ("command", .arr [.str "/bin/sh", .str "-c",
                            .str "echo Hello from CronJob && date"])]])])])])])])]

/-! ## Association-list lemmas -/

theorem lookupKV_setKey_self (kvs : List (String × YVal)) (k : String) (v : YVal) :
    lookupKV (setKey kvs k v) k = some v := by
  induction kvs with
  | nil => simp [setKey, lookupKV]
  | cons e rest ih =>
    obtain ⟨k', v'⟩ := e
    by_cases h : k' = k
    · simp [setKey, lookupKV, h]
    · simp [setKey, lookupKV, h, ih]

theorem lookupKV_setKey_ne (kvs : List (String × YVal)) (k k' : String) (v : YVal)
    (h : k' ≠ k) : lookupKV (setKey kvs k v) k' = lookupKV kvs k' := by
  have hkk : k ≠ k' := Ne.symm h
  induction kvs with
  | nil => simp [setKey, lookupKV, hkk]
  | cons e rest ih =>
    obtain ⟨a, b⟩ := e
    by_cases h2 : a = k
    · subst h2
      simp [setKey, lookupKV, hkk]
    · simp only [setKey, lookupKV, if_neg h2]
      by_cases h3 : a = k'
      · simp [h3]
      · simp [h3, ih]

/-! ## `randomize_obj` characterization lemmas -/

/-- When the manifest is a mapping with an accepted kind and a non-empty
string `metadata.name`, `randomize_obj` rewrites exactly the name entry. -/
theorem randomize_obj_rewrite (kvs mkvs : List (String × YVal)) (nm suffix : String)
    (hk : kindOK (lookupKV kvs "kind") = true)
    (h2 : lookupKV kvs "metadata" = some (.map mkvs))
    (h3 : lookupKV mkvs "name" = some (.str nm))
    (h4 : nm ≠ "") :
    randomize_obj (.map kvs) suffix =
      some (.map (setKey kvs "metadata"
        (.map (setKey mkvs "name" (.str (nm ++ "-" ++ suffix)))))) := by
  simp only [randomize_obj, hk, h2, h3, Option.getD_some, if_true]
  simp [pyTruthy, pyStr, h4]

/-- A non-mapping document is passed through unchanged. -/
theorem randomize_obj_none_nonmap (v : YVal) (suffix : String)
    (h : isMapB v = false) : randomize_obj v suffix = none := by
  cases v <;> simp_all [isMapB, randomize_obj]

/-- A mapping whose kind is not Job/Deployment/CronJob is passed through. -/
theorem randomize_obj_none_badkind (kvs : List (String × YVal)) (suffix : String)
    (h : kindOK (lookupKV kvs "kind") = false) :
    randomize_obj (.map kvs) suffix = none := by
  simp [randomize_obj, h]

/-- A mapping without a `metadata.name` entry is passed through. -/
theorem randomize_obj_none_noname (kvs : List (String × YVal)) (suffix : String)
    (h : getPath (.map kvs) ["metadata", "name"] = none) :
    randomize_obj (.map kvs) suffix = none := by
  cases hk : kindOK (lookupKV kvs "kind") with
  | false => exact randomize_obj_none_badkind kvs suffix hk
  | true =>
    cases hmd : lookupKV kvs "metadata" with
    | none => simp [randomize_obj, hk, hmd, lookupKV]
    | some md =>
      cases md with
      | map mkvs =>
        have hn : lookupKV mkvs "name" = none := by
          simp only [getPath, hmd] at h
          cases hn2 : lookupKV mkvs "name" with
          | none => rfl
          | some nv =>
            rw [hn2] at h
            cases nv <;> simp [getPath] at h
        simp [randomize_obj, hk, hmd, hn]
      | null => simp [randomize_obj, hk, hmd]
      | bool b => simp [randomize_obj, hk, hmd]
      | int n => simp [randomize_obj, hk, hmd]
      | str s => simp [randomize_obj, hk, hmd]
      | arr xs => simp [randomize_obj, hk, hmd]

/-! ## Claim C9 -/

/-- C9: classifying the input `run a python job to preprocess data` yields
kind `Job`, name `preprocess-job`, image `python:3.11-slim`, cpu `500m`,
and memory `512Mi`. -/
theorem C9_scenario_preprocess :
    infer_kind "run a python job to preprocess data" = "Job"
    ∧ (nl_to_job_request "run a python job to preprocess data" "default").name
        = "preprocess-job"
    ∧ (nl_to_job_request "run a python job to preprocess data" "default").image
        = "python:3.11-slim"
    ∧ (nl_to_job_request "run a python job to preprocess data" "default").cpu
        = "500m"
    ∧ (nl_to_job_request "run a python job to preprocess data" "default").memory
        = "512Mi" := by
  refine ⟨rfl, rfl, rfl, rfl, rfl⟩

/-! ## Claim C10 -/

/-- C10: in the `run python` command extraction (Job and CronJob alike)
every occurrence of the literal `"run "` from the match position onward is
removed: `run python a.py then run python b.py` yields the command
`python a.py then python b.py`, which also appears as the rendered CronJob
shell-command line. -/
theorem C10_replace_removes_every_run :
    (nl_to_job_request "run python a.py then run python b.py" "default").command
      = some "python a.py then python b.py"
    ∧ cronjob_command "run python a.py then run python b.py"
        (pyLower "run python a.py then run python b.py")
      = "python a.py then python b.py"
    ∧ pyContains (nl_to_cronjob_yaml "run python a.py then run python b.py" "default")
        "                - python a.py then python b.py" = true := by
  refine ⟨rfl, rfl, by decide⟩

/-! ## Claim C1 -/

/-- C1 counterexample: on the rendered default CronJob manifest,
`randomize_name`'s rewrite appends the suffix to `metadata.name` but leaves
`spec.jobTemplate.spec.template.metadata.labels.app` at its old value
`agentctl-cronjob`, which differs from the new disambiguated name — so the
disambiguator does NOT set the pod label to the new name as the claim
states (that propagation exists only in the separate `/apply` route helper
`_inject_unique_name` of `src/backend/routers/apply.py`). -/
theorem C1_cex_label_not_updated :
    ((randomize_obj cronTreeDemo "ab3de").bind (fun v =>
        asStr (getPath v
          ["spec", "jobTemplate", "spec", "template", "metadata", "labels", "app"])))
      = some "agentctl-cronjob"
    ∧ ((randomize_obj cronTreeDemo "ab3de").bind (fun v =>
        asStr (getPath v ["metadata", "name"])))
      = some "agentctl-cronjob-ab3de"
    ∧ (some "agentctl-cronjob" : Option String) ≠ some "agentctl-cronjob-ab3de" := by
  refine ⟨rfl, rfl, by decide⟩

/-- C1 amended: for every CronJob manifest with a (non-empty, string)
`metadata.name`, the disambiguator rewrites `metadata.name` to
name-plus-suffix and returns the whole `spec` subtree — including
`spec.jobTemplate.spec.template.metadata.labels` — unchanged; it never
touches the pod labels. -/
theorem C1_amended_spec_subtree_unchanged
    (kvs mkvs : List (String × YVal)) (nm suffix : String)
    (hk : lookupKV kvs "kind" = some (.str "CronJob"))
    (h2 : lookupKV kvs "metadata" = some (.map mkvs))
    (h3 : lookupKV mkvs "name" = some (.str nm))
    (h4 : nm ≠ "") :
    ∃ kvs', randomize_obj (.map kvs) suffix = some (.map kvs')
      ∧ getPath (.map kvs') ["metadata", "name"] = some (.str (nm ++ "-" ++ suffix))
      ∧ lookupKV kvs' "spec" = lookupKV kvs "spec" := by
  have hkOK : kindOK (lookupKV kvs "kind") = true := by
    rw [hk]; rfl
  refine ⟨setKey kvs "metadata" (.map (setKey mkvs "name" (.str (nm ++ "-" ++ suffix)))),
    randomize_obj_rewrite kvs mkvs nm suffix hkOK h2 h3 h4, ?_, ?_⟩
  · simp [getPath, lookupKV_setKey_self, lookupKV_setKey_self mkvs]
  · exact lookupKV_setKey_ne kvs "metadata" "spec"
      (.map (setKey mkvs "name" (.str (nm ++ "-" ++ suffix)))) (by decide)

/-- Witness for the amended C1 at the rendered default CronJob manifest. -/
theorem C1_amended_witness :
    ∃ kvs', randomize_obj (.map
        [("apiVersion", YVal.str "batch/v1"),
         ("kind", YVal.str "CronJob"),
         ("metadata", YVal.map [("name", YVal.str "agentctl-cronjob"),
                                ("namespace", YVal.str "default")]),
         ("spec", YVal.map [("schedule", YVal.str "*/5 * * * *")])]) "ab3de"
        = some (.map kvs')
      ∧ getPath (.map kvs') ["metadata", "name"]
        = some (.str ("agentctl-cronjob" ++ "-" ++ "ab3de"))
      ∧ lookupKV kvs' "spec" = lookupKV
          [("apiVersion", YVal.str "batch/v1"),
           ("kind", YVal.str "CronJob"),
           ("metadata", YVal.map [("name", YVal.str "agentctl-cronjob"),
                                  ("namespace", YVal.str "default")]),
           ("spec", YVal.map [("schedule", YVal.str "*/5 * * * *")])] "spec" :=
  C1_amended_spec_subtree_unchanged _
    [("name", YVal.str "agentctl-cronjob"), ("namespace", YVal.str "default")]
    "agentctl-cronjob" "ab3de" rfl rfl rfl (by decide)

/-! ## Claim C5 -/

/-- C5 counterexample: for the text
`schedule a pytorch training job every hour` (classified CronJob), the Job
rules select the pytorch/CUDA image, but the rendered CronJob manifest
contains no pytorch image at all — it falls back to `busybox:1.36`, because
`nl_to_cronjob_yaml` has no pytorch override.  This contradicts the claim
that CronJob image selection follows the same rules as Job. -/
theorem C5_cex_no_pytorch_for_cronjob :
    infer_kind "schedule a pytorch training job every hour" = "CronJob"
    ∧ (nl_to_job_request "schedule a pytorch training job every hour" "default").image
        = "pytorch/pytorch:2.3.0-cuda12.1-cudnn9-runtime"
    ∧ pyContains
        (nl_to_cronjob_yaml "schedule a pytorch training job every hour" "default")
        "pytorch" = false
    ∧ pyContains
        (nl_to_cronjob_yaml "schedule a pytorch training job every hour" "default")
        "image: busybox:1.36" = true := by
  refine ⟨rfl, rfl, by decide, by decide⟩

/-- C5 amended: CronJob rendering mirrors the Job rules for the `python`
image keyword (whenever no `pytorch` override would fire) and for the
`run python` command extraction, but it has no pytorch/CUDA override at
all. -/
theorem C5_amended_cronjob_mirrors_python_rules (text nspace : String) :
    (pyContains (pyLower text) "pytorch" = false →
      cronjob_image (pyLower text) = (nl_to_job_request text nspace).image)
    ∧ (pyContains (pyLower text) "run python" = true →
      (nl_to_job_request text nspace).command = some (cronjob_command text (pyLower text))) := by
  constructor
  · intro h
    simp [nl_to_job_request, cronjob_image, h]
  · intro h
    have hfind : ∃ i, pyFind (pyLower text) "run python" = some i := by
      have h2 := h
      unfold pyContains hasSub at h2
      unfold pyFind
      cases hf : findSub ("run python").data (pyLower text).data with
      | none => rw [hf] at h2; simp at h2
      | some i => exact ⟨i, rfl⟩
    obtain ⟨i, hi⟩ := hfind
    simp [nl_to_job_request, cronjob_command, h, hi]

/-- Witness for the amended C5 on a concrete prompt exercising both
conjuncts. -/
theorem C5_amended_witness :
    (pyContains (pyLower "run python cleanup.py every hour") "pytorch" = false →
      cronjob_image (pyLower "run python cleanup.py every hour")
        = (nl_to_job_request "run python cleanup.py every hour" "default").image)
    ∧ (pyContains (pyLower "run python cleanup.py every hour") "run python" = true →
      (nl_to_job_request "run python cleanup.py every hour" "default").command
        = some (cronjob_command "run python cleanup.py every hour"
            (pyLower "run python cleanup.py every hour"))) :=
  C5_amended_cronjob_mirrors_python_rules "run python cleanup.py every hour" "default"

/-! ## Claim C6 -/

/-- Lowercase hex digits are legal DNS-label characters. -/
theorem isDnsChar_of_hex (c : Char) (h : isHexLowerChar c = true) :
    isDnsChar c = true := by
  simp only [isHexLowerChar, Bool.or_eq_true, Bool.and_eq_true, decide_eq_true_eq] at h
  simp only [isDnsChar, Bool.or_eq_true, Bool.and_eq_true, decide_eq_true_eq]
  rcases h with h | h
  · exact Or.inl (Or.inr ⟨h.1, h.2⟩)
  · exact Or.inl (Or.inl ⟨h.1, by omega⟩)

/-- C6: on a mapping manifest with an accepted kind and a non-empty string
`metadata.name`, the disambiguator output is the serialization of a tree
whose `metadata.name` is the original name plus `-` plus a 5-character
suffix; and if the original name is a DNS-1123-compatible label, so is the
disambiguated one (the suffix being lowercase hex of the UUID text). -/
theorem C6_disambiguated_name_shape
    (parse : String → Except String YVal) (dump : YVal → String)
    (u input : String) (kvs mkvs : List (String × YVal)) (nm : String)
    (hp : parse input = .ok (.map kvs))
    (hk : kindOK (lookupKV kvs "kind") = true)
    (h2 : lookupKV kvs "metadata" = some (.map mkvs))
    (h3 : lookupKV mkvs "name" = some (.str nm))
    (h4 : nm ≠ "")
    (hu : uuid4_shape u = true) :
    ∃ v, randomize_name parse dump u input = dump v
      ∧ getPath v ["metadata", "name"] = some (.str (nm ++ "-" ++ uuid_prefix5 u))
      ∧ (uuid_prefix5 u).length = 5
      ∧ (isDnsLabel nm = true → isDnsLabel (nm ++ "-" ++ uuid_prefix5 u) = true) := by
  simp only [uuid4_shape, Bool.and_eq_true, decide_eq_true_eq] at hu
  obtain ⟨h36, hhex⟩ := hu
  have hr := randomize_obj_rewrite kvs mkvs nm (uuid_prefix5 u) hk h2 h3 h4
  refine ⟨.map (setKey kvs "metadata"
      (.map (setKey mkvs "name" (.str (nm ++ "-" ++ uuid_prefix5 u))))), ?_, ?_, ?_, ?_⟩
  · simp only [randomize_name, hp, hr]
  · simp [getPath, lookupKV_setKey_self, lookupKV_setKey_self mkvs]
  · show (u.data.take 5).length = 5
    rw [List.length_take, h36]
    omega
  · intro hd
    have hsuffix : (u.data.take 5).all isDnsChar = true := by
      have h5 : u.data.take 5 = (u.data.take 8).take 5 := by
        rw [List.take_take]
        norm_num
      rw [h5, List.all_eq_true] at *
      intro x hx
      exact isDnsChar_of_hex x (hhex x (List.take_subset 5 _ hx))
    have hdata : (nm ++ "-" ++ uuid_prefix5 u).data
        = nm.data ++ ['-'] ++ u.data.take 5 := by
      simp [uuid_prefix5]
    simp only [isDnsLabel] at hd ⊢
    rw [hdata, List.all_append, List.all_append, hd, hsuffix]
    rfl

/-- Witness for C6 at a concrete Job manifest and UUID text. -/
theorem C6_witness :
    ∃ v, randomize_name parseJobConst dumpConst u0str "kind: Job" = dumpConst v
      ∧ getPath v ["metadata", "name"]
        = some (.str ("agentctl-job" ++ "-" ++ uuid_prefix5 u0str))
      ∧ (uuid_prefix5 u0str).length = 5
      ∧ (isDnsLabel "agentctl-job" = true →
          isDnsLabel ("agentctl-job" ++ "-" ++ uuid_prefix5 u0str) = true) :=
  C6_disambiguated_name_shape parseJobConst dumpConst u0str "kind: Job"
    [("kind", YVal.str "Job"), ("metadata", YVal.map [("name", YVal.str "agentctl-job")])]
    [("name", YVal.str "agentctl-job")] "agentctl-job"
    rfl rfl rfl rfl (by decide) (by decide)

/-! ## Claim C7 -/

/-- C7: the disambiguator is a total function (the embedding carries no
exception channel — every Python exception is caught and mapped to the
pass-through), and whenever the input fails to parse, parses to a
non-mapping, has a kind outside Job/Deployment/CronJob, or lacks a
`metadata.name`, the output is exactly the input string. -/
theorem C7_passthrough (parse : String → Except String YVal) (dump : YVal → String)
    (u input : String)
    (h : (∃ e, parse input = .error e)
       ∨ (∃ v, parse input = .ok v ∧
          (isMapB v = false
           ∨ kindOK (getPath v ["kind"]) = false
           ∨ getPath v ["metadata", "name"] = none))) :
    randomize_name parse dump u input = input := by
  rcases h with ⟨e, he⟩ | ⟨v, hv, hcond⟩
  · simp [randomize_name, he]
  · rcases hcond with hm | hk | hn
    · simp [randomize_name, hv, randomize_obj_none_nonmap v _ hm]
    · cases v with
      | map kvs =>
        have hgp : getPath (.map kvs) ["kind"] = lookupKV kvs "kind" := by
          simp only [getPath]
          cases lookupKV kvs "kind" <;> rfl
        rw [hgp] at hk
        simp [randomize_name, hv, randomize_obj_none_badkind kvs _ hk]
      | null => simp [randomize_name, hv, randomize_obj]
      | bool b => simp [randomize_name, hv, randomize_obj]
      | int n => simp [randomize_name, hv, randomize_obj]
      | str s => simp [randomize_name, hv, randomize_obj]
      | arr xs => simp [randomize_name, hv, randomize_obj]
    · cases v with
      | map kvs => simp [randomize_name, hv, randomize_obj_none_noname kvs _ hn]
      | null => simp [randomize_name, hv, randomize_obj]
      | bool b => simp [randomize_name, hv, randomize_obj]
      | int n => simp [randomize_name, hv, randomize_obj]
      | str s => simp [randomize_name, hv, randomize_obj]
      | arr xs => simp [randomize_name, hv, randomize_obj]

/-- Witness for C7 on an unparseable input. -/
theorem C7_passthrough_witness :
    randomize_name parseNone dumpConst u0str "kind: Job: bad::"
      = "kind: Job: bad::" :=
  C7_passthrough parseNone dumpConst u0str "kind: Job: bad::"
    (Or.inl ⟨"YAMLError", rfl⟩)

/-! ## Claim C2 -/

/-- C2 counterexample: when the plan-generation call raises, the
orchestrator returns the fallback manifest directly — applying the
disambiguator to that manifest would change it, so the returned manifest
has NOT been passed through the disambiguator on this path. -/
theorem C2_cex_plan_failure_skips_disambiguator :
    generate_yaml parseJobConst dumpConst none "default"
        ⟨.error "boom", .error "boom"⟩ u0str "say hi" none none
      = .ok (job_request_to_yaml (nl_to_job_request "say hi" "default"))
    ∧ randomize_name parseJobConst dumpConst u0str
        (job_request_to_yaml (nl_to_job_request "say hi" "default"))
      ≠ job_request_to_yaml (nl_to_job_request "say hi" "default") := by
  refine ⟨rfl, by decide⟩

/-- C2 amended: the orchestrator passes the manifest through the
disambiguator on the LLM-success path and on the YAML-step failure and
empty-output fallback paths, but on the plan-step failure path it returns
the fallback manifest WITHOUT disambiguation. -/
theorem C2_amended_disambiguation_paths
    (parse : String → Except String YVal) (dump : YVal → String)
    (oai : Option (Except String (Option String))) (envNs : String) (llm : LLMBehavior)
    (u prompt : String) (nsOpt kindOpt : Option String) :
    (∀ e, llm.planResult = .error e →
      generate_yaml parse dump oai envNs llm u prompt nsOpt kindOpt
        = (nl_to_resource_yaml oai prompt (resolve_ns nsOpt envNs)
            (resolve_kind_arg kindOpt)).map (fun p => p.2))
    ∧ (∀ p e, llm.planResult = .ok p → llm.yamlResult = .error e →
      generate_yaml parse dump oai envNs llm u prompt nsOpt kindOpt
        = (nl_to_resource_yaml oai prompt (resolve_ns nsOpt envNs)
            (resolve_kind_arg kindOpt)).map
            (fun p => randomize_name parse dump u p.2))
    ∧ (∀ p y, llm.planResult = .ok p → llm.yamlResult = .ok y → pyStrip y = "" →
      generate_yaml parse dump oai envNs llm u prompt nsOpt kindOpt
        = (nl_to_resource_yaml oai prompt (resolve_ns nsOpt envNs)
            (resolve_kind_arg kindOpt)).map
            (fun p => randomize_name parse dump u p.2))
    ∧ (∀ p y, llm.planResult = .ok p → llm.yamlResult = .ok y → pyStrip y ≠ "" →
      generate_yaml parse dump oai envNs llm u prompt nsOpt kindOpt
        = .ok (randomize_name parse dump u y)) := by
  obtain ⟨pr, yr⟩ := llm
  refine ⟨?_, ?_, ?_, ?_⟩
  · intro e he
    simp only at he
    simp [generate_yaml, he]
  · intro p e hp hy
    simp only at hp hy
    simp [generate_yaml, hp, hy]
  · intro p y hp hy hs
    simp only at hp hy
    simp [generate_yaml, hp, hy, hs]
  · intro p y hp hy hs
    simp only at hp hy
    simp [generate_yaml, hp, hy, hs]

/-- Witness for the amended C2 on the LLM-success path. -/
theorem C2_amended_witness :
    generate_yaml parseNone dumpConst none "default" ⟨.ok "plan", .ok "kind: X"⟩
        u0str "say hi" none none
      = .ok (randomize_name parseNone dumpConst u0str "kind: X") :=
  (C2_amended_disambiguation_paths parseNone dumpConst none "default"
    ⟨.ok "plan", .ok "kind: X"⟩ u0str "say hi" none none).2.2.2
    "plan" "kind: X" rfl rfl (by decide)

/-! ## Claim C3 -/

/-- C3 counterexample, two failure modes.  First: with an unsupported kind
override (`Pod`) and a failing collaborator, the orchestrator propagates
the fallback generator's `ValueError` instead of returning a manifest
string.  Second: even with no override (the kind resolves to `Job`), when
the optional OpenAI collaborator is enabled and its un-guarded
`chat.completions.create` call raises, the exception propagates out of the
fallback path uncaught. -/
theorem C3_cex_unsupported_override_raises :
    generate_yaml parseNone dumpConst none "default"
        ⟨.error "boom", .error "boom"⟩ u0str "say hi" none (some "Pod")
      = .error "Unsupported kind: Pod"
    ∧ (¬ ∃ s, generate_yaml parseNone dumpConst none "default"
        ⟨.error "boom", .error "boom"⟩ u0str "say hi" none (some "Pod")
      = .ok s)
    ∧ generate_yaml parseNone dumpConst (some (.error "OpenAIError")) "default"
        ⟨.error "boom", .error "boom"⟩ u0str "say hi" none none
      = .error "OpenAIError" := by
  refine ⟨rfl, ?_, rfl⟩
  rintro ⟨s, hs⟩
  rw [show generate_yaml parseNone dumpConst none "default"
      ⟨.error "boom", .error "boom"⟩ u0str "say hi" none (some "Pod")
      = .error "Unsupported kind: Pod" from rfl] at hs
  cases hs

/-- The optional OpenAI collaborator neither raises nor can raise: it is
disabled, or enabled and returning. -/
def oaiOk : Option (Except String (Option String)) → Bool
  | some (.error _) => false
  | _ => true

theorem maybe_llm_yaml_ok (oai : Option (Except String (Option String)))
    (fallback : String) (h : oaiOk oai = true) :
    ∃ y, maybe_llm_yaml oai fallback = .ok y := by
  cases oai with
  | none => exact ⟨fallback, rfl⟩
  | some r =>
    cases r with
    | error e => simp [oaiOk] at h
    | ok mc =>
      cases mc with
      | none => exact ⟨stripFences fallback, rfl⟩
      | some c =>
        by_cases hc : c = ""
        · exact ⟨stripFences fallback, by simp [maybe_llm_yaml, hc]⟩
        · exact ⟨stripFences c, by simp [maybe_llm_yaml, hc]⟩

/-- The fallback generator succeeds exactly when the resolved kind is one
of the three workload kinds and the optional OpenAI collaborator does not
raise. -/
theorem nl_to_resource_yaml_ok (oai : Option (Except String (Option String)))
    (text ns : String) (kind : Option String)
    (hoai : oaiOk oai = true)
    (h : resolved_kind text kind = "Job" ∨ resolved_kind text kind = "Deployment"
       ∨ resolved_kind text kind = "CronJob") :
    ∃ y, nl_to_resource_yaml oai text ns kind = .ok (resolved_kind text kind, y) := by
  rcases h with h | h | h
  · obtain ⟨y, hy⟩ :=
      maybe_llm_yaml_ok oai (job_request_to_yaml (nl_to_job_request text ns)) hoai
    exact ⟨y, by simp [nl_to_resource_yaml, h, hy, Except.map]⟩
  · obtain ⟨y, hy⟩ := maybe_llm_yaml_ok oai (nl_to_deployment_yaml text ns) hoai
    exact ⟨y, by simp [nl_to_resource_yaml, h, hy, Except.map]⟩
  · obtain ⟨y, hy⟩ := maybe_llm_yaml_ok oai (nl_to_cronjob_yaml text ns) hoai
    exact ⟨y, by simp [nl_to_resource_yaml, h, hy, Except.map]⟩

/-- C3 amended: the orchestrator never raises and always returns a
manifest string PROVIDED the kind override resolves to Job, Deployment or
CronJob (absent, `Auto`/`auto`/empty, or one of the three kinds) AND the
optional OpenAI collaborator of the fallback generator is disabled or
returns; with any other override the fallback paths propagate
`ValueError`, and an enabled OpenAI call that raises propagates out of
the fallback paths uncaught. -/
theorem C3_amended_ok_for_workload_kinds
    (parse : String → Except String YVal) (dump : YVal → String)
    (oai : Option (Except String (Option String))) (envNs : String) (llm : LLMBehavior)
    (u prompt : String) (nsOpt kindOpt : Option String)
    (hoai : oaiOk oai = true)
    (h : resolved_kind prompt (resolve_kind_arg kindOpt) = "Job"
       ∨ resolved_kind prompt (resolve_kind_arg kindOpt) = "Deployment"
       ∨ resolved_kind prompt (resolve_kind_arg kindOpt) = "CronJob") :
    ∃ s, generate_yaml parse dump oai envNs llm u prompt nsOpt kindOpt = .ok s := by
  obtain ⟨yy, hok⟩ := nl_to_resource_yaml_ok oai prompt (resolve_ns nsOpt envNs)
    (resolve_kind_arg kindOpt) hoai h
  obtain ⟨pr, yr⟩ := llm
  cases pr with
  | error e => exact ⟨yy, by simp [generate_yaml, hok, Except.map]⟩
  | ok p =>
    cases yr with
    | error e =>
      exact ⟨randomize_name parse dump u yy, by simp [generate_yaml, hok, Except.map]⟩
    | ok y =>
      by_cases hs : pyStrip y = ""
      · exact ⟨randomize_name parse dump u yy,
          by simp [generate_yaml, hok, hs, Except.map]⟩
      · exact ⟨randomize_name parse dump u y,
          by simp [generate_yaml, hok, hs, Except.map]⟩

/-- Witness for the amended C3 with an explicit CronJob override, a fully
failing text-generation collaborator, and the OpenAI path disabled. -/
theorem C3_amended_witness :
    ∃ s, generate_yaml parseNone dumpConst none "default"
        ⟨.error "x", .error "x"⟩ u0str "say hi" none (some "CronJob") = .ok s :=
  C3_amended_ok_for_workload_kinds parseNone dumpConst none "default"
    ⟨.error "x", .error "x"⟩ u0str "say hi" none (some "CronJob")
    rfl (by decide)

/-! ## Claim C4 -/

/-- C4: evaluated at a failing input (the collaborator returns empty
output at both steps, the behaviour of the HF wrapper when disabled or
erroring), the orchestrator's result is a bare YAML string — exactly the
fallback manifest — with no `mode` or `model` component anywhere in its
type or value, while the only caller (`backend/routers/agent.py`)
subscripts the result as a mapping with `yaml`/`mode`/`model` keys. -/
theorem C4_result_is_bare_string :
    generate_yaml parseNone dumpConst none "default" ⟨.ok "", .ok ""⟩ u0str
        "say hi" none none
      = .ok (job_request_to_yaml (nl_to_job_request "say hi" "default")) := rfl

/-! ## Claim C8 -/

/-- C8 counterexample: a mapping manifest with unsupported kind AND a
non-mapping `metadata` value makes `apply_manifest` raise `AttributeError`
(uncaught) instead of returning a failure `ApplyResult` — the claim fails
on such inputs even though no network request happens. -/
theorem C8_cex_attribute_error :
    apply_manifest (.ok (.map [("kind", .str "Unsupported"), ("metadata", .int 5)]))
        "default"
      = .error "AttributeError: object has no attribute get"
    ∧ ¬ ∃ r : ApplyResult,
        apply_manifest (.ok (.map [("kind", .str "Unsupported"), ("metadata", .int 5)]))
          "default" = .ok (.noRequest r) := by
  refine ⟨rfl, ?_⟩
  rintro ⟨r, hr⟩
  rw [show apply_manifest (.ok (.map [("kind", .str "Unsupported"), ("metadata", .int 5)]))
      "default" = .error "AttributeError: object has no attribute get" from rfl] at hr
  cases hr

/-- The metadata access succeeds when metadata is absent or a mapping. -/
def metadataOk (kvs : List (String × YVal)) : Bool :=
  match lookupKV kvs "metadata" with
  | none => true
  | some (.map _) => true
  | some _ => false

theorem metadata_get_ok (kvs : List (String × YVal)) (h : metadataOk kvs = true) :
    ∃ md, metadata_get kvs = .ok md := by
  unfold metadataOk at h
  unfold metadata_get
  cases hm : lookupKV kvs "metadata" with
  | none => exact ⟨[], rfl⟩
  | some v =>
    rw [hm] at h
    cases v with
    | map md => exact ⟨md, rfl⟩
    | null => simp at h
    | bool b => simp at h
    | int n => simp at h
    | str s => simp at h
    | arr xs => simp at h

/-- C8 amended: `apply_manifest` returns a failure result without issuing
any network request whenever the input fails to parse, parses to a
non-mapping document, or parses to a mapping with unsupported kind whose
`metadata` is absent or a mapping; when `metadata` is a present
non-mapping value, it instead raises `AttributeError` before the kind
dispatch (still issuing no request). -/
theorem C8_amended_failure_without_request
    (parsed : Except String YVal) (dns : String)
    (h : (∃ e, parsed = .error e)
       ∨ (∃ v, parsed = .ok v ∧ isMapB v = false)
       ∨ (∃ kvs, parsed = .ok (.map kvs) ∧ kindOK (lookupKV kvs "kind") = false
            ∧ metadataOk kvs = true)) :
    ∃ msg, apply_manifest parsed dns = .ok (.noRequest ⟨false, msg⟩) := by
  rcases h with ⟨e, he⟩ | ⟨v, hv, hm⟩ | ⟨kvs, hv, hkind, hmdok⟩
  · subst he; exact ⟨_, rfl⟩
  · subst hv
    cases v with
    | map kvs => simp [isMapB] at hm
    | null => exact ⟨_, rfl⟩
    | bool b => exact ⟨_, rfl⟩
    | int n => exact ⟨_, rfl⟩
    | str s => exact ⟨_, rfl⟩
    | arr xs => exact ⟨_, rfl⟩
  · subst hv
    obtain ⟨md, hmd⟩ := metadata_get_ok kvs hmdok
    cases hk2 : lookupKV kvs "kind" with
    | none => exact ⟨"Unsupported kind: None", by simp [apply_manifest, hmd, hk2]⟩
    | some kv =>
      rw [hk2] at hkind
      cases kv with
      | str s =>
        have hs : (¬s = "Job" ∧ ¬s = "Deployment") ∧ ¬s = "CronJob" := by
          simpa [kindOK] using hkind
        refine ⟨"Unsupported kind: " ++ pyStr (.str s), ?_⟩
        simp only [apply_manifest, hmd, hk2]
        split <;> simp_all
      | null =>
        exact ⟨"Unsupported kind: " ++ pyStr YVal.null,
          by simp [apply_manifest, hmd, hk2]⟩
      | bool b =>
        exact ⟨"Unsupported kind: " ++ pyStr (YVal.bool b),
          by simp [apply_manifest, hmd, hk2]⟩
      | int n =>
        exact ⟨"Unsupported kind: " ++ pyStr (YVal.int n),
          by simp [apply_manifest, hmd, hk2]⟩
      | arr xs =>
        exact ⟨"Unsupported kind: " ++ pyStr (YVal.arr xs),
          by simp [apply_manifest, hmd, hk2]⟩
      | map m2 =>
        exact ⟨"Unsupported kind: " ++ pyStr (YVal.map m2),
          by simp [apply_manifest, hmd, hk2]⟩

/-- Witness for the amended C8 on a `kind: Pod` manifest. -/
theorem C8_amended_witness :
    ∃ msg, apply_manifest (.ok (.map [("kind", .str "Pod")])) "default"
      = .ok (.noRequest ⟨false, msg⟩) :=
  C8_amended_failure_without_request (.ok (.map [("kind", .str "Pod")])) "default"
    (Or.inr (Or.inr ⟨[("kind", YVal.str "Pod")], rfl, by decide, by decide⟩))
